import Mathlib

/-!
Verification of the cardapio-online-backend repository.

The repository contains two source files: `main.go`, an HTTP CRUD backend for
establishments, product categories and products, and `sql-init.sql`, the
database schema that additionally declares the order-lifecycle tables
(orders, order_items, order_events, coupons, coupon_redemptions,
loyalty_accounts, loyalty_transactions).

The `Crud` namespace below is a shallow embedding of the Go handlers in
`main.go`; the database is modelled as in-memory lists of rows and the
handlers as pure functions from a database state and request data to a new
state and an HTTP response.  Transient storage failures and malformed JSON
bodies are outside the deterministic model: the embedded handlers correspond
to the code paths where decoding succeeded and the database call returned
either rows, no rows, or a successful execution.

The `Engine` namespace models the Order Processing Engine (BuildOrder,
CommitOrder, TransitionOrder).  No implementation of it exists under the
source tree — only `sql-init.sql` declares its tables — so those definitions
are modelled from the spec, as marked in their doc comments.
-/

namespace Crud

/-- Establishment record, from the `Establishment` struct in `main.go`. -/
structure Establishment where
  id : String
  name : String
  description : String
  address : String
  imageKey : String
  bannerKey : String
  phone : String
deriving DecidableEq

/-- Product category record, from the `ProductCategory` struct in `main.go`. -/
structure ProductCategory where
  id : String
  establishmentId : String
  name : String
  description : String
deriving DecidableEq

/-- Product record, from the `Product` struct in `main.go`. -/
structure Product where
  id : String
  establishmentId : String
  categoryId : Option String
  name : String
  description : String
  priceCents : Int
  imageKey : String
  bannerKey : String
  isActive : Bool
deriving DecidableEq

/-- The relational state the three `main.go` resources read and write,
modelled as lists of rows keyed by their `id` column. -/
structure Db where
  establishments : List Establishment
  productCategories : List ProductCategory
  products : List Product
deriving DecidableEq

/-- An HTTP response as produced by the `main.go` handlers: a status code,
with the JSON body abstracted to the encoded row where one is written. -/
inductive Response (α : Type) where
  | ok (body : α)
  | noContent
  | notFound
deriving DecidableEq

/-- The numeric HTTP status of a response. -/
def Response.statusCode : Response α → Nat
  | .ok _ => 200
  | .noContent => 204
  | .notFound => 404

/-- `SELECT ... FROM establishments WHERE id=$1` as a row lookup. -/
def findEstablishment (db : Db) (id : String) : Option Establishment :=
  db.establishments.find? (fun row => row.id == id)

/-- `SELECT ... FROM product_categories WHERE id=$1` as a row lookup. -/
def findProductCategory (db : Db) (id : String) : Option ProductCategory :=
  db.productCategories.find? (fun row => row.id == id)

/-- `SELECT ... FROM products WHERE id=$1` as a row lookup. -/
def findProduct (db : Db) (id : String) : Option Product :=
  db.products.find? (fun row => row.id == id)

/-- `getEstablishment` from `main.go`: the row is queried by id; when the
scan reports `sql.ErrNoRows` the handler answers `http.NotFound` (404),
otherwise it encodes the row with status 200. -/
def getEstablishment (db : Db) (id : String) : Response Establishment :=
  match findEstablishment db id with
  | none => .notFound
  | some row => .ok row

/-- `getProductCategory` from `main.go`: 404 on `sql.ErrNoRows`, else 200. -/
def getProductCategory (db : Db) (id : String) : Response ProductCategory :=
  match findProductCategory db id with
  | none => .notFound
  | some row => .ok row

/-- `getProduct` from `main.go`: 404 on `sql.ErrNoRows`, else 200. -/
def getProduct (db : Db) (id : String) : Response Product :=
  match findProduct db id with
  | none => .notFound
  | some row => .ok row

/-- `updateEstablishment` from `main.go`: a decoded body is written with
`UPDATE establishments SET ... WHERE id=$7`; the handler never inspects the
affected-row count and answers 204 whenever the statement itself succeeds.
The update keeps each row's own id, as the SQL never sets the id column. -/
def updateEstablishment (db : Db) (id : String) (body : Establishment) :
    Db × Response Establishment :=
  ({ db with establishments :=
      db.establishments.map (fun row =>
        if row.id == id then { body with id := row.id } else row) },
    .noContent)

/-- `deleteEstablishment` from `main.go`: `DELETE FROM establishments WHERE
id=$1`, affected-row count ignored, always 204 on statement success. -/
def deleteEstablishment (db : Db) (id : String) : Db × Response Establishment :=
  ({ db with establishments :=
      db.establishments.filter (fun row => row.id != id) },
    .noContent)

/-- `updateProductCategory` from `main.go`: UPDATE by id, count ignored,
204 on statement success. -/
def updateProductCategory (db : Db) (id : String) (body : ProductCategory) :
    Db × Response ProductCategory :=
  ({ db with productCategories :=
      db.productCategories.map (fun row =>
        if row.id == id then { body with id := row.id } else row) },
    .noContent)

/-- `deleteProductCategory` from `main.go`: DELETE by id, count ignored,
204 on statement success. -/
def deleteProductCategory (db : Db) (id : String) : Db × Response ProductCategory :=
  ({ db with productCategories :=
      db.productCategories.filter (fun row => row.id != id) },
    .noContent)

/-- `updateProduct` from `main.go`: UPDATE by id, count ignored, 204 on
statement success. -/
def updateProduct (db : Db) (id : String) (body : Product) :
    Db × Response Product :=
  ({ db with products :=
      db.products.map (fun row =>
        if row.id == id then { body with id := row.id } else row) },
    .noContent)

/-- `deleteProduct` from `main.go`: DELETE by id, count ignored, 204 on
statement success. -/
def deleteProduct (db : Db) (id : String) : Db × Response Product :=
  ({ db with products :=
      db.products.filter (fun row => row.id != id) },
    .noContent)

end Crud

namespace Engine

/-- Order status enum, from the CHECK constraint on `orders.status` in
`sql-init.sql`. -/
inductive OrderStatus where
  | PENDING
  | PROCESSING
  | COMPLETED
  | CANCELLED
  | FAILED
deriving DecidableEq

/-- Modelled from the spec: §4.2 — `COMPLETED`, `CANCELLED`, `FAILED` are
terminal states of the order state machine. -/
def OrderStatus.isTerminal : OrderStatus → Bool
  | .COMPLETED => true
  | .CANCELLED => true
  | .FAILED => true
  | _ => false

/-- Modelled from the spec: §4.2 — the state machine admits exactly
`PENDING → PROCESSING → COMPLETED`, with `PENDING` or `PROCESSING` able to
move to `CANCELLED` or `FAILED`; every other pair is invalid. -/
def validTransition : OrderStatus → OrderStatus → Bool
  | .PENDING, .PROCESSING => true
  | .PENDING, .CANCELLED => true
  | .PENDING, .FAILED => true
  | .PROCESSING, .COMPLETED => true
  | .PROCESSING, .CANCELLED => true
  | .PROCESSING, .FAILED => true
  | _, _ => false

/-- Modelled from the spec: §7 — the error kinds of the order engine. -/
inductive OrderError where
  | ProductUnavailable
  | InvalidQuantity
  | CouponInvalid
  | CouponExpired
  | CouponAlreadyUsed
  | CouponExhausted
  | InsufficientPoints
  | InvalidTransition
  | NotFound
deriving DecidableEq

/-- Coupon discount type, from the CHECK constraint on
`coupons.discount_type` in `sql-init.sql`. -/
inductive DiscountType where
  | percent
  | fixed
deriving DecidableEq

/-- A product as seen by the engine, from the `products` table of
`sql-init.sql`: establishment owner, current price, active flag.  Ids are
modelled as naturals in place of UUIDs, dates as naturals. -/
structure CatalogProduct where
  id : Nat
  establishmentId : Nat
  priceCents : Int
  isActive : Bool
deriving DecidableEq

/-- A coupon row, from the `coupons` table of `sql-init.sql`. -/
structure Coupon where
  code : String
  discountType : DiscountType
  discountValue : Int
  validFrom : Nat
  validUntil : Nat
  maxUses : Option Nat
deriving DecidableEq

/-- A coupon redemption row, from the `coupon_redemptions` table of
`sql-init.sql`. -/
structure CouponRedemption where
  couponCode : String
  customerId : Nat
  orderId : Option Nat
deriving DecidableEq

/-- A loyalty account row, from the `loyalty_accounts` table of
`sql-init.sql`: one per customer, integer points balance. -/
structure LoyaltyAccount where
  customerId : Nat
  pointsBalance : Int
deriving DecidableEq

/-- A loyalty ledger entry, from the `loyalty_transactions` table of
`sql-init.sql`. -/
structure LoyaltyTransaction where
  customerId : Nat
  pointsDelta : Int
  reason : String
deriving DecidableEq

/-- An order line item, from the `order_items` table of `sql-init.sql`:
quantity plus the unit and total price snapshotted at order time. -/
structure OrderItem where
  productId : Nat
  quantity : Int
  unitPriceCents : Int
  totalPriceCents : Int
deriving DecidableEq

/-- An order row, from the `orders` table of `sql-init.sql`, owning its
line items. -/
structure Order where
  id : Nat
  customerId : Nat
  establishmentId : Nat
  couponCode : Option String
  loyaltyPoints : Nat
  totalCents : Int
  status : OrderStatus
  items : List OrderItem
  orderedAt : Nat
  processedAt : Option Nat
  completedAt : Option Nat
  updatedAt : Nat
deriving DecidableEq

/-- An audit-trail entry, from the `order_events` table of `sql-init.sql`;
the JSONB payload is modelled by its spec-mandated fields: the prior status
and the optional reason. -/
structure OrderEvent where
  orderId : Nat
  eventType : OrderStatus
  priorStatus : OrderStatus
  reason : Option String
  occurredAt : Nat
deriving DecidableEq

/-- Modelled from the spec: §4.1 — a priced, not yet persisted order draft,
the result of BuildOrder. -/
structure OrderDraft where
  customerId : Nat
  establishmentId : Nat
  items : List OrderItem
  couponCode : Option String
  redeemPoints : Nat
  subtotalCents : Int
  couponDiscountCents : Int
  loyaltyDiscountCents : Int
  totalCents : Int
  status : OrderStatus
deriving DecidableEq

/-- Modelled from the spec: §4.1 — a BuildOrder request: customer,
establishment, ordered (product id, quantity) pairs, optional coupon code
and loyalty points to redeem (0 meaning none). -/
structure BuildRequest where
  customerId : Nat
  establishmentId : Nat
  items : List (Nat × Int)
  couponCode : Option String
  redeemPoints : Nat
deriving DecidableEq

/-- The engine's entire persistent state: the §3 entities stored in the
`sql-init.sql` tables, plus the current date and the order-id allocator. -/
structure EngineState where
  products : List CatalogProduct
  coupons : List Coupon
  redemptions : List CouponRedemption
  accounts : List LoyaltyAccount
  transactions : List LoyaltyTransaction
  orders : List Order
  events : List OrderEvent
  today : Nat
  nextOrderId : Nat
deriving DecidableEq

/-- Product lookup by id (first matching row). -/
def lookupProduct (s : EngineState) (pid : Nat) : Option CatalogProduct :=
  s.products.find? (fun p => p.id == pid)

/-- Coupon lookup by code (first matching row; `code` is the table's
primary key). -/
def lookupCoupon (s : EngineState) (code : String) : Option Coupon :=
  s.coupons.find? (fun c => c.code == code)

/-- Loyalty account lookup by customer id (first matching row;
`customer_id` is the table's primary key). -/
def lookupAccount (s : EngineState) (cid : Nat) : Option LoyaltyAccount :=
  s.accounts.find? (fun a => a.customerId == cid)

/-- Order lookup by id (first matching row). -/
def lookupOrder (s : EngineState) (oid : Nat) : Option Order :=
  s.orders.find? (fun o => o.id == oid)

/-- The number of recorded redemptions of a coupon code, across all
customers and orders. -/
def redemptionCount (s : EngineState) (code : String) : Nat :=
  (s.redemptions.filter (fun r => r.couponCode == code)).length

/-- Whether this customer already has a redemption recorded for the code. -/
def customerRedeemed (s : EngineState) (code : String) (cid : Nat) : Bool :=
  s.redemptions.any (fun r => r.couponCode == code && r.customerId == cid)

/-- A customer's current points balance, 0 when no account row exists. -/
def pointsBalanceOf (s : EngineState) (cid : Nat) : Int :=
  match lookupAccount s cid with
  | some a => a.pointsBalance
  | none => 0

/-- Modelled from the spec: §4.1 step 1 — the product must exist, belong to
the requested establishment, and be active. -/
def productAvailable (s : EngineState) (estId : Nat) (pid : Nat) : Bool :=
  match lookupProduct s pid with
  | some p => p.establishmentId == estId && p.isActive
  | none => false

/-- Modelled from the spec: §4.1 step 5 — percentage coupons discount
`subtotal * discount_value / 100` with integer division rounded down
(`Int.ediv` with the positive divisor 100 is exactly floor division); fixed
coupons discount `min(discount_value, subtotal)`. -/
def discountOf (c : Coupon) (subtotal : Int) : Int :=
  match c.discountType with
  | .percent => Int.ediv (subtotal * c.discountValue) 100
  | .fixed => min c.discountValue subtotal

/-- The sum of the line totals of a list of order items. -/
def lineTotalSum (items : List OrderItem) : Int :=
  (items.map (fun it => it.totalPriceCents)).sum

/-- Modelled from the spec: §4.1 step 5 — coupon validation in the spec's
order: existence (`CouponInvalid`), validity window (`CouponExpired`), no
prior redemption by this customer (`CouponAlreadyUsed`), usage cap
(`CouponExhausted`); on success the computed discount. -/
def couponStage (s : EngineState) (cid : Nat) (subtotal : Int) :
    Option String → Except OrderError Int
  | none => .ok 0
  | some code =>
    match lookupCoupon s code with
    | none => .error .CouponInvalid
    | some c =>
      if c.validFrom ≤ s.today ∧ s.today ≤ c.validUntil then
        if customerRedeemed s code cid then .error .CouponAlreadyUsed
        else
          match c.maxUses with
          | some n =>
            if n ≤ redemptionCount s code then .error .CouponExhausted
            else .ok (discountOf c subtotal)
          | none => .ok (discountOf c subtotal)
      else .error .CouponExpired

/-- Modelled from the spec: §4.1 step 6 — when points are redeemed the
balance must cover them (`InsufficientPoints`); each point is worth one
minor-currency unit at the spec's default 1:1 rate. -/
def loyaltyStage (s : EngineState) (cid : Nat) (points : Nat) :
    Except OrderError Int :=
  if points = 0 then .ok 0
  else if pointsBalanceOf s cid < (points : Int) then .error .InsufficientPoints
  else .ok (points : Int)

/-- Modelled from the spec: §4.1 Order Builder — no implementation exists in
the source tree, only the schema; the validation sequence is the spec's
fail-fast order (product availability, positive quantities, coupon checks,
loyalty balance), each unit price is snapshotted from the product's current
price, and the final total is subtotal minus coupon discount minus loyalty
discount, floored at zero.  The result is a `PENDING` draft with no side
effects. -/
def buildOrder (s : EngineState) (req : BuildRequest) :
    Except OrderError OrderDraft :=
  if req.items.any (fun it => !productAvailable s req.establishmentId it.1) then
    .error .ProductUnavailable
  else if req.items.any (fun it => it.2 ≤ 0) then
    .error .InvalidQuantity
  else
    let items := req.items.map (fun it =>
      let price := match lookupProduct s it.1 with
        | some p => p.priceCents
        | none => 0
      { productId := it.1
        quantity := it.2
        unitPriceCents := price
        totalPriceCents := it.2 * price })
    let subtotal := lineTotalSum items
    match couponStage s req.customerId subtotal req.couponCode with
    | .error e => .error e
    | .ok cd =>
      match loyaltyStage s req.customerId req.redeemPoints with
      | .error e => .error e
      | .ok ld =>
        .ok { customerId := req.customerId
              establishmentId := req.establishmentId
              items := items
              couponCode := req.couponCode
              redeemPoints := req.redeemPoints
              subtotalCents := subtotal
              couponDiscountCents := cd
              loyaltyDiscountCents := ld
              totalCents := max 0 (subtotal - cd - ld)
              status := .PENDING }

/-- The coupon-redemption row inserted when an order commits with a
coupon. -/
def mkRedemption (code : String) (cid : Nat) (oid : Nat) : CouponRedemption :=
  { couponCode := code, customerId := cid, orderId := some oid }

/-- Modelled from the spec: §4.3 — commit-time coupon re-validation, with
the uniqueness constraint as the arbiter: a duplicate (code, customer) use
surfaces as `CouponAlreadyUsed`, a reached usage cap as `CouponExhausted`. -/
def couponCommitCheck (s : EngineState) (cid : Nat) :
    Option String → Option OrderError
  | none => none
  | some code =>
    if customerRedeemed s code cid then some .CouponAlreadyUsed
    else
      match lookupCoupon s code with
      | none => some .CouponInvalid
      | some c =>
        match c.maxUses with
        | some n =>
          if n ≤ redemptionCount s code then some .CouponExhausted else none
        | none => none

/-- `UPDATE loyalty_accounts SET points_balance = points_balance - p WHERE
customer_id = cid` as a row map. -/
def debitAccount (accounts : List LoyaltyAccount) (cid : Nat) (p : Nat) :
    List LoyaltyAccount :=
  accounts.map (fun a =>
    if a.customerId == cid then
      { a with pointsBalance := a.pointsBalance - (p : Int) }
    else a)

/-- `UPDATE loyalty_accounts SET points_balance = points_balance + p WHERE
customer_id = cid` as a row map. -/
def creditAccount (accounts : List LoyaltyAccount) (cid : Nat) (p : Nat) :
    List LoyaltyAccount :=
  accounts.map (fun a =>
    if a.customerId == cid then
      { a with pointsBalance := a.pointsBalance + (p : Int) }
    else a)

/-- Modelled from the spec: §4.3 — the accrual rate is configurable; this
model fixes it at one point per 100 cents of final total (any non-negative
rate satisfies the claims). -/
def accruedPoints (totalCents : Int) : Nat :=
  (Int.ediv totalCents 100).toNat

/-- Modelled from the spec: §4.3 Ledger and §8 — CommitOrder persists a
draft as a `PENDING` order in one atomic unit: the coupon is re-validated
(uniqueness first, then usage cap) and the loyalty balance re-checked at
commit time; on success one coupon-redemption row, one negative loyalty
transaction and the balance decrement are applied together with the new
order, and exactly one OrderEvent is appended whose event type is the new
order's status and whose payload records the draft's pre-call status.
Returning an error produces no state change. -/
def commitOrder (s : EngineState) (d : OrderDraft) :
    Except OrderError (EngineState × Order) :=
  match couponCommitCheck s d.customerId d.couponCode with
  | some e => .error e
  | none =>
    if d.redeemPoints ≠ 0 ∧ pointsBalanceOf s d.customerId < (d.redeemPoints : Int) then
      .error .InsufficientPoints
    else
      let oid := s.nextOrderId
      let order : Order :=
        { id := oid
          customerId := d.customerId
          establishmentId := d.establishmentId
          couponCode := d.couponCode
          loyaltyPoints := d.redeemPoints
          totalCents := d.totalCents
          status := .PENDING
          items := d.items
          orderedAt := s.today
          processedAt := none
          completedAt := none
          updatedAt := s.today }
      let ev : OrderEvent :=
        { orderId := oid
          eventType := .PENDING
          priorStatus := d.status
          reason := none
          occurredAt := s.today }
      .ok
        ({ s with
            orders := order :: s.orders
            events := ev :: s.events
            redemptions :=
              match d.couponCode with
              | some code => mkRedemption code d.customerId oid :: s.redemptions
              | none => s.redemptions
            transactions :=
              if d.redeemPoints = 0 then s.transactions
              else
                { customerId := d.customerId
                  pointsDelta := -(d.redeemPoints : Int)
                  reason := "order redemption" } :: s.transactions
            accounts :=
              if d.redeemPoints = 0 then s.accounts
              else debitAccount s.accounts d.customerId d.redeemPoints
            nextOrderId := s.nextOrderId + 1 },
          order)

/-- Modelled from the spec: §4.2 State Machine and §4.3 — TransitionOrder
looks the order up (`NotFound`), rejects invalid edges with
`InvalidTransition` and no side effects, and otherwise records the new
status, stamps `processed_at` or `completed_at`, updates `updated_at`,
appends exactly one OrderEvent carrying the prior status and the reason,
and on completion credits the accrued loyalty points with a positive
ledger entry. -/
def transitionOrder (s : EngineState) (oid : Nat) (newStatus : OrderStatus)
    (reason : Option String) : Except OrderError (EngineState × Order) :=
  match lookupOrder s oid with
  | none => .error .NotFound
  | some o =>
    if validTransition o.status newStatus then
      let o1 : Order :=
        { o with
          status := newStatus
          processedAt :=
            if newStatus == .PROCESSING then some s.today else o.processedAt
          completedAt :=
            if newStatus == .COMPLETED then some s.today else o.completedAt
          updatedAt := s.today }
      let ev : OrderEvent :=
        { orderId := oid
          eventType := newStatus
          priorStatus := o.status
          reason := reason
          occurredAt := s.today }
      let earned := accruedPoints o.totalCents
      .ok
        ({ s with
            orders := s.orders.map (fun x => if x.id == oid then o1 else x)
            events := ev :: s.events
            transactions :=
              if newStatus == .COMPLETED then
                { customerId := o.customerId
                  pointsDelta := (earned : Int)
                  reason := "order completion" } :: s.transactions
              else s.transactions
            accounts :=
              if newStatus == .COMPLETED then
                creditAccount s.accounts o.customerId earned
              else s.accounts },
          o1)
    else .error .InvalidTransition

/-- Modelled from the spec: §6 — the external product catalog may change a
product's current price at any time; this is the catalog mutation relevant
to the price-snapshot claims. -/
def updateProductPrice (s : EngineState) (pid : Nat) (price : Int) :
    EngineState :=
  { s with products := s.products.map (fun p =>
      if p.id == pid then { p with priceCents := price } else p) }

/-- One state-changing step of the system: a successful commit, a successful
transition, or a catalog price change.  BuildOrder is pure and changes no
state. -/
inductive Step : EngineState → EngineState → Prop where
  | commit {s s' : EngineState} {d : OrderDraft} {o : Order} :
      commitOrder s d = .ok (s', o) → Step s s'
  | transition {s s' : EngineState} {oid : Nat} {t : OrderStatus}
      {r : Option String} {o : Order} :
      transitionOrder s oid t r = .ok (s', o) → Step s s'
  | priceUpdate (s : EngineState) (pid : Nat) (price : Int) :
      Step s (updateProductPrice s pid price)

/-- Well-formedness of the loyalty store: one account row per customer (the
table's primary key) with a non-negative balance. -/
def AccountsOK (s : EngineState) : Prop :=
  (s.accounts.map (fun a => a.customerId)).Nodup ∧
    ∀ a ∈ s.accounts, 0 ≤ a.pointsBalance

/-- The coupon usage-cap invariant: every coupon that resolves by code and
carries a `max_uses` cap has at most that many recorded redemptions. -/
def CouponCapOK (s : EngineState) : Prop :=
  ∀ code c n, lookupCoupon s code = some c → c.maxUses = some n →
    redemptionCount s code ≤ n

/-- Modelled from the spec: §6 — the interface the engine exposes to
callers, exactly the three operations. -/
inductive CoreRequest where
  | build (req : BuildRequest)
  | commit (draft : OrderDraft)
  | transition (orderId : Nat) (newStatus : OrderStatus)
      (reason : Option String)

/-- A reply from the engine: an order draft, a persisted order, or an
error. -/
inductive CoreReply where
  | draft (d : OrderDraft)
  | order (o : Order)
  | failure (e : OrderError)

/-- Modelled from the spec: §6 — the dispatcher routing each of the three
exposed operations to its implementation; errors leave the state as it
was. -/
def coreHandle (s : EngineState) : CoreRequest → EngineState × CoreReply
  | .build r =>
    (s, match buildOrder s r with
        | .ok d => .draft d
        | .error e => .failure e)
  | .commit d =>
    match commitOrder s d with
    | .ok (s1, o) => (s1, .order o)
    | .error e => (s, .failure e)
  | .transition oid t rs =>
    match transitionOrder s oid t rs with
    | .ok (s1, o) => (s1, .order o)
    | .error e => (s, .failure e)

/-- The concrete state of the spec's §8 pricing example: two active
products priced 1000 and 500 cents at establishment 10, the `SAVE10`
10-percent coupon currently valid, and customer 7 holding 100 points. -/
def exampleState : EngineState :=
  { products :=
      [ { id := 1, establishmentId := 10, priceCents := 1000, isActive := true },
        { id := 2, establishmentId := 10, priceCents := 500, isActive := true } ]
    coupons :=
      [ { code := "SAVE10"
          discountType := .percent
          discountValue := 10
          validFrom := 0
          validUntil := 99999
          maxUses := none } ]
    redemptions := []
    accounts := [ { customerId := 7, pointsBalance := 100 } ]
    transactions := []
    orders := []
    events := []
    today := 50
    nextOrderId := 1 }

/-- The spec's §8 pricing example request: 2 units of product 1 and 1 unit
of product 2, coupon `SAVE10`, 100 points redeemed. -/
def exampleRequest : BuildRequest :=
  { customerId := 7
    establishmentId := 10
    items := [(1, 2), (2, 1)]
    couponCode := some "SAVE10"
    redeemPoints := 100 }

/-- The draft the example request prices to, written as a literal:
subtotal 2500, coupon discount 250, loyalty discount 100, total 2150. -/
def exampleDraft : OrderDraft :=
  { customerId := 7
    establishmentId := 10
    items :=
      [ { productId := 1, quantity := 2, unitPriceCents := 1000, totalPriceCents := 2000 },
        { productId := 2, quantity := 1, unitPriceCents := 500, totalPriceCents := 500 } ]
    couponCode := some "SAVE10"
    redeemPoints := 100
    subtotalCents := 2500
    couponDiscountCents := 250
    loyaltyDiscountCents := 100
    totalCents := 2150
    status := .PENDING }

/-- The first line item of the example draft. -/
def exampleItem : OrderItem :=
  { productId := 1, quantity := 2, unitPriceCents := 1000, totalPriceCents := 2000 }

/-- A completed order, used as a terminal-state fixture. -/
def exampleOrder : Order :=
  { id := 1
    customerId := 7
    establishmentId := 10
    couponCode := none
    loyaltyPoints := 0
    totalCents := 2150
    status := .COMPLETED
    items := []
    orderedAt := 50
    processedAt := none
    completedAt := some 50
    updatedAt := 50 }

/-- The example state holding one completed (terminal) order. -/
def completedState : EngineState := { exampleState with orders := [exampleOrder] }

/-- The value of a successful engine result, with a fallback for the error
case; used to name concrete successful outcomes. -/
def okOr (x : Except OrderError (EngineState × Order))
    (dflt : EngineState × Order) : EngineState × Order :=
  match x with
  | .ok p => p
  | .error _ => dflt

/-- The state and order produced by committing the example draft. -/
def commitEx : EngineState × Order :=
  okOr (commitOrder exampleState exampleDraft) (exampleState, exampleOrder)

/-- A single-use coupon fixture. -/
def onceCoupon : Coupon :=
  { code := "ONCE"
    discountType := .fixed
    discountValue := 100
    validFrom := 0
    validUntil := 99999
    maxUses := some 1 }

/-- A state in which the single-use coupon has already been redeemed once,
i.e. its usage cap is reached. -/
def exhaustedState : EngineState :=
  { exampleState with
    coupons := [onceCoupon]
    redemptions := [ { couponCode := "ONCE", customerId := 9, orderId := some 0 } ] }

/-- A draft attempting to use the exhausted coupon. -/
def onceDraft : OrderDraft := { exampleDraft with couponCode := some "ONCE" }

end Engine

namespace Crud

/-- The empty database. -/
def emptyDb : Db := { establishments := [], productCategories := [], products := [] }

/-- A sample decoded product body. -/
def sampleProduct : Product :=
  { id := ""
    establishmentId := "e1"
    categoryId := none
    name := "X"
    description := ""
    priceCents := 100
    imageKey := ""
    bannerKey := ""
    isActive := true }

end Crud

open Engine

/-- Helper: the state machine of §4.2 has no outgoing edge from a terminal
status. -/
theorem isTerminal_validTransition_false (a b : OrderStatus)
    (h : a.isTerminal = true) : validTransition a b = false := by
  cases a <;> cases b <;> first
    | rfl
    | exact Bool.noConfusion h

/-- Claim C2: for every order whose status is terminal (`COMPLETED`,
`CANCELLED` or `FAILED`) and every target status, `transitionOrder` fails
with `InvalidTransition`.  The operation returns only the error and no
successor state, so the order and its events are left unchanged. -/
theorem terminal_transition_fails (s : EngineState) (oid : Nat) (o : Order)
    (t : OrderStatus) (r : Option String)
    (hfind : lookupOrder s oid = some o) (hterm : o.status.isTerminal = true) :
    transitionOrder s oid t r = .error .InvalidTransition := by
  unfold transitionOrder
  rw [hfind]
  simp [isTerminal_validTransition_false o.status t hterm]

/-- Witness for C2 at a concrete state holding one completed order. -/
theorem terminal_transition_fails_witness :
    transitionOrder completedState 1 .PROCESSING none = .error .InvalidTransition :=
  terminal_transition_fails completedState 1 exampleOrder .PROCESSING none rfl rfl

/-- Claim C9: in `main.go`, a GET on /establishments/, /product_categories/
or /products/ with an id that matches no row answers HTTP 404 Not Found
(the `sql.ErrNoRows` branch of each handler), not any other body. -/
theorem get_missing_row_404 :
    (∀ db id, Crud.findEstablishment db id = none →
      Crud.getEstablishment db id = .notFound ∧
        (Crud.getEstablishment db id).statusCode = 404) ∧
    (∀ db id, Crud.findProductCategory db id = none →
      Crud.getProductCategory db id = .notFound ∧
        (Crud.getProductCategory db id).statusCode = 404) ∧
    (∀ db id, Crud.findProduct db id = none →
      Crud.getProduct db id = .notFound ∧
        (Crud.getProduct db id).statusCode = 404) := by
  refine ⟨fun db id h => ?_, fun db id h => ?_, fun db id h => ?_⟩ <;>
    simp [Crud.getEstablishment, Crud.getProductCategory, Crud.getProduct, h,
      Crud.Response.statusCode]

/-- Witness for C9 on the empty database. -/
theorem get_missing_row_404_witness :
    Crud.getProduct Crud.emptyDb "nope" = .notFound ∧
      (Crud.getProduct Crud.emptyDb "nope").statusCode = 404 :=
  get_missing_row_404.2.2 Crud.emptyDb "nope" rfl

/-- Helper: a keyed UPDATE touches nothing when no row matches the key. -/
theorem map_unchanged_of_find_none {α : Type} (l : List α) (p : α → Bool)
    (f : α → α) (h : l.find? p = none) :
    l.map (fun row => if p row then f row else row) = l := by
  have hall := List.find?_eq_none.mp h
  have : l.map (fun row => if p row then f row else row) =
      l.map (fun row => row) :=
    List.map_congr_left (fun a ha => by simp [hall a ha])
  simpa using this

/-- Claim C10: in `main.go`, every well-formed PUT or DELETE on the three
id-addressed resources whose database statement succeeds answers HTTP 204
No Content; the handlers never inspect the affected-row count, so updating
or deleting a nonexistent record also reports success (and changes no
row). -/
theorem put_delete_always_204 :
    (∀ db key body, ((Crud.updateEstablishment db key body).2).statusCode = 204) ∧
    (∀ db key, ((Crud.deleteEstablishment db key).2).statusCode = 204) ∧
    (∀ db key body, ((Crud.updateProductCategory db key body).2).statusCode = 204) ∧
    (∀ db key, ((Crud.deleteProductCategory db key).2).statusCode = 204) ∧
    (∀ db key body, ((Crud.updateProduct db key body).2).statusCode = 204) ∧
    (∀ db key, ((Crud.deleteProduct db key).2).statusCode = 204) ∧
    (∀ db key body, Crud.findEstablishment db key = none →
      (Crud.updateEstablishment db key body).1 = db) ∧
    (∀ db key body, Crud.findProduct db key = none →
      (Crud.updateProduct db key body).1 = db) ∧
    (∀ db key, Crud.findProduct db key = none →
      (Crud.deleteProduct db key).1 = db) := by
  refine ⟨fun _ _ _ => rfl, fun _ _ => rfl, fun _ _ _ => rfl, fun _ _ => rfl,
    fun _ _ _ => rfl, fun _ _ => rfl, ?_, ?_, ?_⟩
  · intro db key body h
    show { db with establishments := _ } = db
    rw [map_unchanged_of_find_none db.establishments
      (fun row => row.id == key) _ h]
  · intro db key body h
    show { db with products := _ } = db
    rw [map_unchanged_of_find_none db.products
      (fun row => row.id == key) _ h]
  · intro db key h
    have hall := List.find?_eq_none.mp h
    have hkeep : db.products.filter (fun row => row.id != key) = db.products :=
      List.filter_eq_self.mpr (fun a ha => by simpa using hall a ha)
    show { db with products := _ } = db
    rw [hkeep]

/-- Witness for C10: PUT and DELETE of a missing product report 204 and
leave the empty database unchanged. -/
theorem put_delete_always_204_witness :
    ((Crud.updateProduct Crud.emptyDb "nope" Crud.sampleProduct).2).statusCode = 204 ∧
      (Crud.updateProduct Crud.emptyDb "nope" Crud.sampleProduct).1 = Crud.emptyDb ∧
      (Crud.deleteProduct Crud.emptyDb "nope").1 = Crud.emptyDb :=
  ⟨put_delete_always_204.2.2.2.2.1 Crud.emptyDb "nope" Crud.sampleProduct,
   put_delete_always_204.2.2.2.2.2.2.2.1 Crud.emptyDb "nope" Crud.sampleProduct rfl,
   put_delete_always_204.2.2.2.2.2.2.2.2 Crud.emptyDb "nope" rfl⟩

/-- Claim C7: the spec's pricing example — 2 units at 1000 cents plus
1 unit at 500 cents with a 10-percent coupon and 100 redeemed points
yields subtotal 2500, coupon discount 250, loyalty discount 100 and final
total 2150 cents. -/
theorem example_pricing_2150 :
    buildOrder exampleState exampleRequest = .ok exampleDraft ∧
      exampleDraft.subtotalCents = 2500 ∧
      exampleDraft.couponDiscountCents = 250 ∧
      exampleDraft.loyaltyDiscountCents = 100 ∧
      exampleDraft.totalCents = 2150 :=
  ⟨rfl, rfl, rfl, rfl, rfl⟩

/-- Claim C8: the engine's caller-facing interface is exactly the three
operations: every request is a BuildOrder, CommitOrder or TransitionOrder,
and the dispatcher answers each with the corresponding operation's draft,
order, or error. -/
theorem core_interface_three_ops :
    (∀ q : CoreRequest,
      (∃ r, q = .build r) ∨ (∃ d, q = .commit d) ∨
        ∃ oid t rs, q = .transition oid t rs) ∧
    (∀ s r,
      (∃ d, buildOrder s r = .ok d ∧ coreHandle s (.build r) = (s, .draft d)) ∨
      (∃ e, buildOrder s r = .error e ∧
        coreHandle s (.build r) = (s, .failure e))) ∧
    (∀ s d,
      (∃ s1 o, commitOrder s d = .ok (s1, o) ∧
        coreHandle s (.commit d) = (s1, .order o)) ∨
      (∃ e, commitOrder s d = .error e ∧
        coreHandle s (.commit d) = (s, .failure e))) ∧
    (∀ s oid t rs,
      (∃ s1 o, transitionOrder s oid t rs = .ok (s1, o) ∧
        coreHandle s (.transition oid t rs) = (s1, .order o)) ∨
      (∃ e, transitionOrder s oid t rs = .error e ∧
        coreHandle s (.transition oid t rs) = (s, .failure e))) := by
  refine ⟨?_, ?_, ?_, ?_⟩
  · intro q
    cases q with
    | build r => exact Or.inl ⟨r, rfl⟩
    | commit d => exact Or.inr (Or.inl ⟨d, rfl⟩)
    | transition oid t rs => exact Or.inr (Or.inr ⟨oid, t, rs, rfl⟩)
  · intro s r
    cases h : buildOrder s r with
    | ok d => exact Or.inl ⟨d, rfl, by simp [coreHandle, h]⟩
    | error e => exact Or.inr ⟨e, rfl, by simp [coreHandle, h]⟩
  · intro s d
    cases h : commitOrder s d with
    | ok p =>
      obtain ⟨s1, o⟩ := p
      exact Or.inl ⟨s1, o, rfl, by simp [coreHandle, h]⟩
    | error e => exact Or.inr ⟨e, rfl, by simp [coreHandle, h]⟩
  · intro s oid t rs
    cases h : transitionOrder s oid t rs with
    | ok p =>
      obtain ⟨s1, o⟩ := p
      exact Or.inl ⟨s1, o, rfl, by simp [coreHandle, h]⟩
    | error e => exact Or.inr ⟨e, rfl, by simp [coreHandle, h]⟩

/-- Claim C1: every draft a valid BuildOrder request prices has a total
equal to the sum of its line totals minus the coupon discount minus the
loyalty discount, floored at zero, and hence never negative. -/
theorem buildOrder_total_floor_nonneg (s : EngineState) (req : BuildRequest)
    (d : OrderDraft) (h : buildOrder s req = .ok d) :
    d.totalCents =
      max 0 (lineTotalSum d.items - d.couponDiscountCents - d.loyaltyDiscountCents) ∧
      0 ≤ d.totalCents := by
  simp only [buildOrder] at h
  split at h
  · exact absurd h (by simp)
  · split at h
    · exact absurd h (by simp)
    · split at h
      · exact absurd h (by simp)
      · split at h
        · exact absurd h (by simp)
        · obtain ⟨rfl⟩ : _ = d := (Except.ok.injEq _ _).mp h
          refine ⟨rfl, le_max_left 0 _⟩

/-- Witness for C1 at the spec's pricing example. -/
theorem buildOrder_total_floor_nonneg_witness :
    exampleDraft.totalCents =
      max 0 (lineTotalSum exampleDraft.items - exampleDraft.couponDiscountCents -
        exampleDraft.loyaltyDiscountCents) ∧
      0 ≤ exampleDraft.totalCents :=
  buildOrder_total_floor_nonneg exampleState exampleRequest exampleDraft rfl

/-- Claim C3: every successful CommitOrder or TransitionOrder appends
exactly one new OrderEvent whose event type is the new status and whose
payload records the status immediately before the call (the draft's status
for a commit, the stored order's status for a transition). -/
theorem commit_transition_one_event :
    (∀ s d s1 o, commitOrder s d = .ok (s1, o) →
      ∃ e, s1.events = e :: s.events ∧ e.eventType = o.status ∧
        e.priorStatus = d.status) ∧
    (∀ s oid t r s1 o, transitionOrder s oid t r = .ok (s1, o) →
      ∃ e prev, lookupOrder s oid = some prev ∧ s1.events = e :: s.events ∧
        e.eventType = t ∧ e.priorStatus = prev.status) := by
  constructor
  · intro s d s1 o h
    simp only [commitOrder] at h
    split at h
    · exact absurd h (by simp)
    · split at h
      · exact absurd h (by simp)
      · rw [Except.ok.injEq, Prod.mk.injEq] at h
        obtain ⟨h1, h2⟩ := h
        subst h1; subst h2
        exact ⟨_, rfl, rfl, rfl⟩
  · intro s oid t r s1 o h
    simp only [transitionOrder] at h
    split at h
    · exact absurd h (by simp)
    · rename_i prev hprev
      split at h
      · rw [Except.ok.injEq, Prod.mk.injEq] at h
        obtain ⟨h1, h2⟩ := h
        subst h1; subst h2
        exact ⟨_, prev, hprev, rfl, rfl, rfl⟩
      · exact absurd h (by simp)

/-- Witness for C3 at the example commit. -/
theorem commit_transition_one_event_witness :
    ∃ e, (commitEx.1).events = e :: exampleState.events ∧
      e.eventType = (commitEx.2).status ∧ e.priorStatus = exampleDraft.status :=
  commit_transition_one_event.1 exampleState exampleDraft commitEx.1 commitEx.2 rfl

/-- Claim C6: every order item the builder produces has a strictly
positive quantity, a line total equal to quantity times unit price, and a
unit price snapshotted from the product's price at build time; later
catalog price changes leave every stored order untouched, and transitions
preserve each order's items. -/
theorem order_items_wellformed_snapshot :
    (∀ s req d, buildOrder s req = .ok d → ∀ it ∈ d.items,
      0 < it.quantity ∧ it.totalPriceCents = it.quantity * it.unitPriceCents ∧
        ∃ p, lookupProduct s it.productId = some p ∧
          it.unitPriceCents = p.priceCents) ∧
    (∀ s pid price, (updateProductPrice s pid price).orders = s.orders) ∧
    (∀ s oid t r s1 o, transitionOrder s oid t r = .ok (s1, o) →
      ∀ o2 ∈ s1.orders, ∃ o1, o1 ∈ s.orders ∧ o2.items = o1.items) := by
  refine ⟨?_, fun _ _ _ => rfl, ?_⟩
  · intro s req d h it hit
    simp only [buildOrder] at h
    split at h
    · exact absurd h (by simp)
    · rename_i hav
      split at h
      · exact absurd h (by simp)
      · rename_i hq
        split at h
        · exact absurd h (by simp)
        · split at h
          · exact absurd h (by simp)
          · obtain ⟨rfl⟩ : _ = d := (Except.ok.injEq _ _).mp h
            obtain ⟨pr, hpr, rfl⟩ := List.mem_map.mp hit
            have hav2 : productAvailable s req.establishmentId pr.1 = true := by
              by_contra hc
              exact hav (List.any_eq_true.mpr
                ⟨pr, hpr, by simp [Bool.not_eq_true _ |>.mp hc]⟩)
            have hq2 : 0 < pr.2 := by
              by_contra hc
              push_neg at hc
              exact hq (List.any_eq_true.mpr ⟨pr, hpr, by simpa using hc⟩)
            refine ⟨hq2, rfl, ?_⟩
            unfold productAvailable at hav2
            cases hl : lookupProduct s pr.1 with
            | none => rw [hl] at hav2; exact absurd hav2 (by simp)
            | some p => exact ⟨p, rfl, rfl⟩
  · intro s oid t r s1 o h
    simp only [transitionOrder] at h
    split at h
    · exact absurd h (by simp)
    · rename_i prev hprev
      split at h
      · rw [Except.ok.injEq, Prod.mk.injEq] at h
        obtain ⟨h1, h2⟩ := h
        subst h1; subst h2
        intro o2 ho2
        obtain ⟨x, hx, rfl⟩ := List.mem_map.mp ho2
        cases hc : (x.id == oid) with
        | true =>
          exact ⟨prev, List.mem_of_find?_eq_some hprev, by simp [hc]⟩
        | false =>
          exact ⟨x, hx, by simp [hc]⟩
      · exact absurd h (by simp)


/-- Helper: how one new redemption row changes a coupon's redemption
count. -/
theorem redemption_filter_cons (r : CouponRedemption)
    (l : List CouponRedemption) (code : String) :
    (List.filter (fun x => x.couponCode == code) (r :: l)).length =
      (if r.couponCode = code then 1 else 0) +
        (List.filter (fun x => x.couponCode == code) l).length := by
  rw [List.filter_cons]
  by_cases h : r.couponCode = code <;> simp [h, Nat.add_comm]

/-- Helper: a successful commit keeps every capped coupon at or below its
usage cap. -/
theorem commit_preserves_cap (s s1 : EngineState) (d : OrderDraft) (o : Order)
    (h : commitOrder s d = .ok (s1, o)) (hcap : CouponCapOK s) :
    CouponCapOK s1 := by
  simp only [commitOrder] at h
  split at h
  · exact absurd h (by simp)
  · rename_i hchk
    split at h
    · exact absurd h (by simp)
    · rw [Except.ok.injEq, Prod.mk.injEq] at h
      obtain ⟨h1, h2⟩ := h
      subst h1
      intro code c n hl hm
      have hl' : lookupCoupon s code = some c := hl
      cases hcc : d.couponCode with
      | none => exact hcap code c n hl' hm
      | some code0 =>
        show (List.filter (fun r => r.couponCode == code)
          (mkRedemption code0 d.customerId s.nextOrderId :: s.redemptions)).length ≤ n
        rw [redemption_filter_cons]
        by_cases hceq : code0 = code
        · subst hceq
          rw [hcc] at hchk
          simp only [couponCommitCheck] at hchk
          split at hchk
          · exact absurd hchk (by simp)
          · simp only [hl', hm] at hchk
            split at hchk
            · exact absurd hchk (by simp)
            · rename_i hlt
              have hcnt : ¬ n ≤ redemptionCount s code0 := hlt
              simp only [redemptionCount] at hcnt
              simp [mkRedemption]
              omega
        · simp only [mkRedemption]
          rw [if_neg hceq]
          have := hcap code c n hl' hm
          simp only [redemptionCount] at this
          omega

/-- Helper: a transition changes no coupon or redemption row. -/
theorem transition_preserves_cap (s s1 : EngineState) (oid : Nat)
    (t : OrderStatus) (r : Option String) (o : Order)
    (h : transitionOrder s oid t r = .ok (s1, o)) (hcap : CouponCapOK s) :
    CouponCapOK s1 := by
  simp only [transitionOrder] at h
  split at h
  · exact absurd h (by simp)
  · split at h
    · rw [Except.ok.injEq, Prod.mk.injEq] at h
      obtain ⟨h1, h2⟩ := h
      subst h1
      exact hcap
    · exact absurd h (by simp)

/-- Helper: every system step preserves the coupon usage-cap invariant. -/
theorem step_preserves_cap (s s1 : EngineState) (hstep : Step s s1)
    (hcap : CouponCapOK s) : CouponCapOK s1 := by
  cases hstep with
  | commit h => exact commit_preserves_cap _ _ _ _ h hcap
  | transition h => exact transition_preserves_cap _ _ _ _ _ _ h hcap
  | priceUpdate pid price => exact hcap

/-- Claim C4: a coupon with max_uses = N is never redeemed more than N
times in any reachable state, and once the cap is reached any further
commit attempt with that coupon fails with CouponAlreadyUsed or
CouponExhausted. -/
theorem coupon_cap_invariant :
    (∀ s s1, CouponCapOK s → Relation.ReflTransGen Step s s1 →
      CouponCapOK s1) ∧
    (∀ s (d : OrderDraft) code c n, lookupCoupon s code = some c →
      c.maxUses = some n → n ≤ redemptionCount s code →
      d.couponCode = some code →
      ∃ e, commitOrder s d = .error e ∧
        (e = OrderError.CouponAlreadyUsed ∨ e = OrderError.CouponExhausted)) := by
  constructor
  · intro s s1 hcap htr
    induction htr with
    | refl => exact hcap
    | tail _ hbc ih => exact step_preserves_cap _ _ hbc ih
  · intro s d code c n hl hm hcnt hcc
    cases hcr : customerRedeemed s code d.customerId with
    | true =>
      refine ⟨.CouponAlreadyUsed, ?_, Or.inl rfl⟩
      simp [commitOrder, couponCommitCheck, hcc, hcr]
    | false =>
      refine ⟨.CouponExhausted, ?_, Or.inr rfl⟩
      simp [commitOrder, couponCommitCheck, hcc, hcr, hl, hm, hcnt]

/-- Witness for C4: the example state satisfies the invariant, and a
commit against the exhausted single-use coupon fails as required. -/
theorem coupon_cap_invariant_witness :
    CouponCapOK exampleState ∧
      ∃ e, commitOrder exhaustedState onceDraft = .error e ∧
        (e = OrderError.CouponAlreadyUsed ∨ e = OrderError.CouponExhausted) := by
  constructor
  · refine coupon_cap_invariant.1 exampleState exampleState ?_
      Relation.ReflTransGen.refl
    intro code c n hl hm
    have hmem := List.mem_of_find?_eq_some hl
    rw [List.mem_singleton.mp hmem] at hm
    exact absurd hm (by simp)
  · exact coupon_cap_invariant.2 exhaustedState onceDraft "ONCE" onceCoupon 1
      rfl rfl (by decide) rfl

/-- Helper: debiting keeps the set of account owners. -/
theorem debitAccount_customerIds (l : List LoyaltyAccount) (cid : Nat)
    (p : Nat) :
    (debitAccount l cid p).map (fun a => a.customerId) =
      l.map (fun a => a.customerId) := by
  rw [debitAccount, List.map_map]
  refine List.map_congr_left (fun a _ => ?_)
  by_cases h : a.customerId = cid <;> simp [h]

/-- Helper: crediting keeps the set of account owners. -/
theorem creditAccount_customerIds (l : List LoyaltyAccount) (cid : Nat)
    (p : Nat) :
    (creditAccount l cid p).map (fun a => a.customerId) =
      l.map (fun a => a.customerId) := by
  rw [creditAccount, List.map_map]
  refine List.map_congr_left (fun a _ => ?_)
  by_cases h : a.customerId = cid <;> simp [h]

/-- Helper: with one account row per customer, the keyed lookup returns
exactly the member row with that customer id. -/
theorem find_unique_account (l : List LoyaltyAccount) (cid : Nat)
    (a : LoyaltyAccount) (hnd : (l.map (fun x => x.customerId)).Nodup)
    (ha : a ∈ l) (hc : a.customerId = cid) :
    l.find? (fun x => x.customerId == cid) = some a := by
  induction l with
  | nil => cases ha
  | cons hd tl ih =>
    rw [List.map_cons, List.nodup_cons] at hnd
    obtain ⟨hnotin, hndtl⟩ := hnd
    rcases List.mem_cons.mp ha with heq | htl
    · subst heq
      exact List.find?_cons_of_pos _ (by simp [hc])
    · have hne : hd.customerId ≠ cid := by
        intro hEq
        exact hnotin (List.mem_map.mpr ⟨a, htl, by rw [hc, hEq]⟩)
      rw [List.find?_cons_of_neg _ (by simp [hne])]
      exact ih hndtl htl

/-- Helper: a successful commit keeps every loyalty balance non-negative
(the commit-time balance re-check covers the debit). -/
theorem commit_preserves_accounts (s s1 : EngineState) (d : OrderDraft)
    (o : Order) (h : commitOrder s d = .ok (s1, o)) (hacc : AccountsOK s) :
    AccountsOK s1 := by
  obtain ⟨hnd, hpos⟩ := hacc
  simp only [commitOrder] at h
  split at h
  · exact absurd h (by simp)
  · rename_i hchk
    split at h
    · exact absurd h (by simp)
    · rename_i hbal
      rw [Except.ok.injEq, Prod.mk.injEq] at h
      obtain ⟨h1, h2⟩ := h
      subst h1
      refine ⟨?_, ?_⟩
      · show ((if d.redeemPoints = 0 then s.accounts
            else debitAccount s.accounts d.customerId d.redeemPoints).map
            (fun a => a.customerId)).Nodup
        by_cases hz : d.redeemPoints = 0
        · rw [if_pos hz]; exact hnd
        · rw [if_neg hz, debitAccount_customerIds]; exact hnd
      · show ∀ a ∈ (if d.redeemPoints = 0 then s.accounts
            else debitAccount s.accounts d.customerId d.redeemPoints),
            0 ≤ a.pointsBalance
        by_cases hz : d.redeemPoints = 0
        · rw [if_pos hz]; exact hpos
        · rw [if_neg hz]
          intro a1 ha1
          simp only [debitAccount] at ha1
          obtain ⟨a, ha, rfl⟩ := List.mem_map.mp ha1
          have hble : (d.redeemPoints : Int) ≤ pointsBalanceOf s d.customerId := by
            by_contra hc
            push_neg at hc
            exact hbal ⟨hz, hc⟩
          cases hcid : a.customerId == d.customerId with
          | false => simpa [hcid] using hpos a ha
          | true =>
            have hfind : lookupAccount s d.customerId = some a :=
              find_unique_account s.accounts d.customerId a hnd ha
                (by simpa using hcid)
            have hbalEq : pointsBalanceOf s d.customerId = a.pointsBalance := by
              simp [pointsBalanceOf, hfind]
            rw [hbalEq] at hble
            simp only [hcid, if_true]
            omega

/-- Helper: a transition only ever credits points, keeping balances
non-negative. -/
theorem transition_preserves_accounts (s s1 : EngineState) (oid : Nat)
    (t : OrderStatus) (r : Option String) (o : Order)
    (h : transitionOrder s oid t r = .ok (s1, o)) (hacc : AccountsOK s) :
    AccountsOK s1 := by
  obtain ⟨hnd, hpos⟩ := hacc
  simp only [transitionOrder] at h
  split at h
  · exact absurd h (by simp)
  · rename_i prev hprev
    split at h
    · rw [Except.ok.injEq, Prod.mk.injEq] at h
      obtain ⟨h1, h2⟩ := h
      subst h1
      refine ⟨?_, ?_⟩
      · show ((if t == OrderStatus.COMPLETED then
            creditAccount s.accounts prev.customerId
              (accruedPoints prev.totalCents)
            else s.accounts).map (fun a => a.customerId)).Nodup
        by_cases hco : (t == OrderStatus.COMPLETED) = true
        · rw [if_pos hco, creditAccount_customerIds]; exact hnd
        · rw [if_neg hco]; exact hnd
      · show ∀ a ∈ (if t == OrderStatus.COMPLETED then
            creditAccount s.accounts prev.customerId
              (accruedPoints prev.totalCents)
            else s.accounts), 0 ≤ a.pointsBalance
        by_cases hco : (t == OrderStatus.COMPLETED) = true
        · rw [if_pos hco]
          intro a1 ha1
          simp only [creditAccount] at ha1
          obtain ⟨a, ha, rfl⟩ := List.mem_map.mp ha1
          by_cases hcid : a.customerId = prev.customerId
          · simp only [hcid, beq_self_eq_true, if_true]
            exact add_nonneg (hpos a ha) (Int.natCast_nonneg _)
          · simpa [hcid] using hpos a ha
        · rw [if_neg hco]; exact hpos
    · exact absurd h (by simp)

/-- Helper: every system step preserves loyalty-store well-formedness. -/
theorem step_preserves_accounts (s s1 : EngineState) (hstep : Step s s1)
    (hacc : AccountsOK s) : AccountsOK s1 := by
  cases hstep with
  | commit h => exact commit_preserves_accounts _ _ _ _ h hacc
  | transition h => exact transition_preserves_accounts _ _ _ _ _ _ h hacc
  | priceUpdate pid price => exact hacc

/-- Claim C5: starting from a well-formed loyalty store (one row per
customer, balances non-negative), no sequence of system operations —
commits with point redemption, completions with accrual, catalog updates —
ever drives a points balance negative. -/
theorem loyalty_balance_nonneg (s s1 : EngineState) (hacc : AccountsOK s)
    (htr : Relation.ReflTransGen Step s s1) : AccountsOK s1 := by
  induction htr with
  | refl => exact hacc
  | tail _ hbc ih => exact step_preserves_accounts _ _ hbc ih

/-- Witness for C5 after the example commit, which debits the full
balance to zero. -/
theorem loyalty_balance_nonneg_witness : AccountsOK commitEx.1 :=
  loyalty_balance_nonneg exampleState commitEx.1 ⟨by decide, by decide⟩
    (Relation.ReflTransGen.single
      (@Step.commit exampleState commitEx.1 exampleDraft commitEx.2 rfl))

/-- Witness for C6 at the first item of the example draft. -/
theorem order_items_wellformed_snapshot_witness :
    0 < exampleItem.quantity ∧
      exampleItem.totalPriceCents =
        exampleItem.quantity * exampleItem.unitPriceCents ∧
      ∃ p, lookupProduct exampleState exampleItem.productId = some p ∧
        exampleItem.unitPriceCents = p.priceCents :=
  order_items_wellformed_snapshot.1 exampleState exampleRequest exampleDraft
    rfl exampleItem (by decide)
